import Mathlib

/-!
Verification of the historical surge-data query interface of the ArogyamAI
repository (`Multi-Agent/multi_tool_agent/agent.py`).

The repository's one piece of testable logic is `get_historical_data`, a pure
function over a hardcoded 12-month dataset with optional month and
disease-category filters and an aggregate summary.  This file shallowly embeds
the dataset and the function and proves/refutes the spec's claims about them.

Python dictionaries keyed by month number are modelled as association lists in
insertion order; a raised Python exception (`max()` over an empty sequence, or
any other uncaught error) is modelled by the `QueryResult.fault` constructor,
distinct from the structured `{"error": ...}` dictionary which is
`QueryResult.error`.
-/

namespace ArogyamAI

/-- One disease-category's contribution within a month
(one element of a month's `surge_data` list in the source). -/
structure SurgeEntry where
  disease_category : String
  conditions : List String
  patient_count : Nat
  icu_admissions : Nat
  oxygen_cylinders_used : Option Nat
  primary_cause : String
deriving DecidableEq, Repr

/-- One calendar month's record in the hardcoded `historical_data` dictionary. -/
structure MonthData where
  month : String
  festivals : List String
  average_aqi : Nat
  baseline_patients : Nat
  surge_data : List SurgeEntry
  total_surge_patients : Nat
  notes : String
deriving DecidableEq, Repr

/-- January entry of the source dataset. -/
def january : MonthData :=
  { month := "January"
    festivals := ["Makar Sankranti", "Republic Day", "Pongal"]
    average_aqi := 280
    baseline_patients := 450
    surge_data :=
      [ { disease_category := "respiratory"
          conditions := ["Asthma", "Bronchitis", "COPD", "Pneumonia"]
          patient_count := 680
          icu_admissions := 85
          oxygen_cylinders_used := some 210
          primary_cause := "Winter pollution + fog + crop burning residue" }
      , { disease_category := "accident"
          conditions := ["Road accidents", "Burns", "Fractures"]
          patient_count := 120
          icu_admissions := 30
          oxygen_cylinders_used := none
          primary_cause := "Makar Sankranti kite flying accidents, Republic Day gatherings" }
      , { disease_category := "gastro"
          conditions := ["Food poisoning", "Diarrhea"]
          patient_count := 95
          icu_admissions := 8
          oxygen_cylinders_used := none
          primary_cause := "Festival food consumption at large gatherings" } ]
    total_surge_patients := 895
    notes := "Severe winter pollution in North India. Delhi/NCR hospitals most affected." }

/-- February entry of the source dataset. -/
def february : MonthData :=
  { month := "February"
    festivals := ["Maha Shivaratri"]
    average_aqi := 220
    baseline_patients := 420
    surge_data :=
      [ { disease_category := "respiratory"
          conditions := ["Bronchitis", "Cold", "Flu"]
          patient_count := 540
          icu_admissions := 45
          oxygen_cylinders_used := some 120
          primary_cause := "Lingering winter pollution, temperature fluctuations" }
      , { disease_category := "gastro"
          conditions := ["Gastroenteritis", "Food poisoning"]
          patient_count := 110
          icu_admissions := 12
          oxygen_cylinders_used := none
          primary_cause := "Fasting during Maha Shivaratri followed by heavy meals" }
      , { disease_category := "accident"
          conditions := ["Slip and fall", "Crowd-related injuries"]
          patient_count := 65
          icu_admissions := 8
          oxygen_cylinders_used := none
          primary_cause := "Temple crowd during night-long Shivaratri prayers" } ]
    total_surge_patients := 715
    notes := "Moderate surge. Air quality improving but still problematic." }

/-- March entry of the source dataset. -/
def march : MonthData :=
  { month := "March"
    festivals := ["Holi"]
    average_aqi := 180
    baseline_patients := 400
    surge_data :=
      [ { disease_category := "respiratory"
          conditions := ["Allergic reactions", "Asthma attacks", "Eye infections"]
          patient_count := 520
          icu_admissions := 35
          oxygen_cylinders_used := some 90
          primary_cause := "Holi colors (chemical irritants), dust, smoke from bonfires" }
      , { disease_category := "skin"
          conditions := ["Chemical burns", "Allergic dermatitis", "Rashes"]
          patient_count := 280
          icu_admissions := 15
          oxygen_cylinders_used := none
          primary_cause := "Toxic colors, prolonged skin exposure during Holi" }
      , { disease_category := "accident"
          conditions := ["Alcohol poisoning", "Road accidents", "Assault"]
          patient_count := 145
          icu_admissions := 38
          oxygen_cylinders_used := none
          primary_cause := "Holi celebrations, intoxication-related incidents" }
      , { disease_category := "gastro"
          conditions := ["Food poisoning", "Alcohol-related issues"]
          patient_count := 130
          icu_admissions := 18
          oxygen_cylinders_used := none
          primary_cause := "Festival food, bhang consumption" } ]
    total_surge_patients := 1075
    notes := "HIGH ALERT: Holi causes multi-category surge. Prepare dermatology and toxicology." }

/-- April entry of the source dataset. -/
def april : MonthData :=
  { month := "April"
    festivals := ["Rama Navami", "Hanuman Jayanti", "Good Friday"]
    average_aqi := 150
    baseline_patients := 380
    surge_data :=
      [ { disease_category := "heat_related"
          conditions := ["Heat stroke", "Dehydration", "Heat exhaustion"]
          patient_count := 210
          icu_admissions := 28
          oxygen_cylinders_used := none
          primary_cause := "Rising summer temperatures (35-42°C), outdoor religious processions" }
      , { disease_category := "gastro"
          conditions := ["Food poisoning", "Diarrhea"]
          patient_count := 145
          icu_admissions := 15
          oxygen_cylinders_used := none
          primary_cause := "Food spoilage in heat, festival prasad distribution" }
      , { disease_category := "accident"
          conditions := ["Crowd crushes", "Stampedes"]
          patient_count := 85
          icu_admissions := 22
          oxygen_cylinders_used := none
          primary_cause := "Large temple gatherings for Rama Navami processions" } ]
    total_surge_patients := 440
    notes := "Summer onset. Hydration and heat management critical." }

/-- May entry of the source dataset. -/
def may : MonthData :=
  { month := "May"
    festivals := ["Buddha Purnima"]
    average_aqi := 140
    baseline_patients := 360
    surge_data :=
      [ { disease_category := "heat_related"
          conditions := ["Heat stroke", "Severe dehydration"]
          patient_count := 295
          icu_admissions := 45
          oxygen_cylinders_used := none
          primary_cause := "Peak summer heat (40-48°C in some regions)" }
      , { disease_category := "infectious"
          conditions := ["Viral fever", "Chickenpox", "Measles"]
          patient_count := 165
          icu_admissions := 18
          oxygen_cylinders_used := none
          primary_cause := "Pre-monsoon infections, school summer season" }
      , { disease_category := "gastro"
          conditions := ["Acute gastroenteritis", "Food poisoning"]
          patient_count := 120
          icu_admissions := 10
          oxygen_cylinders_used := none
          primary_cause := "Bacterial growth in food due to extreme heat" } ]
    total_surge_patients := 580
    notes := "Peak summer. Prepare for heat-related emergencies." }

/-- June entry of the source dataset. -/
def june : MonthData :=
  { month := "June"
    festivals := ["Eid al-Adha (varies)"]
    average_aqi := 120
    baseline_patients := 340
    surge_data :=
      [ { disease_category := "gastro"
          conditions := ["Food poisoning", "Dysentery", "Cholera"]
          patient_count := 245
          icu_admissions := 28
          oxygen_cylinders_used := none
          primary_cause := "Monsoon onset, contaminated water, Eid meat consumption" }
      , { disease_category := "infectious"
          conditions := ["Dengue early cases", "Malaria", "Leptospirosis"]
          patient_count := 180
          icu_admissions := 32
          oxygen_cylinders_used := none
          primary_cause := "Early monsoon, mosquito breeding in stagnant water" }
      , { disease_category := "accident"
          conditions := ["Drowning", "Electrocution", "Flood injuries"]
          patient_count := 90
          icu_admissions := 25
          oxygen_cylinders_used := none
          primary_cause := "Heavy monsoon rains, waterlogging, flooding" } ]
    total_surge_patients := 515
    notes := "Monsoon begins. Stock anti-malarial and dengue testing kits." }

/-- July entry of the source dataset. -/
def july : MonthData :=
  { month := "July"
    festivals := ["Rath Yatra", "Guru Purnima"]
    average_aqi := 95
    baseline_patients := 380
    surge_data :=
      [ { disease_category := "infectious"
          conditions := ["Dengue", "Malaria", "Typhoid", "Hepatitis A"]
          patient_count := 485
          icu_admissions := 65
          oxygen_cylinders_used := some 85
          primary_cause := "Peak monsoon, waterborne diseases, vector-borne diseases" }
      , { disease_category := "gastro"
          conditions := ["Cholera", "Acute diarrhea", "Dysentery"]
          patient_count := 310
          icu_admissions := 42
          oxygen_cylinders_used := none
          primary_cause := "Contaminated water sources, flooding" }
      , { disease_category := "respiratory"
          conditions := ["Pneumonia", "Tuberculosis flare-ups"]
          patient_count := 195
          icu_admissions := 38
          oxygen_cylinders_used := some 95
          primary_cause := "Humidity, dampness, monsoon-related respiratory issues" }
      , { disease_category := "accident"
          conditions := ["Crowd injuries", "Stampede victims"]
          patient_count := 125
          icu_admissions := 30
          oxygen_cylinders_used := none
          primary_cause := "Rath Yatra processions in Puri, massive crowds" } ]
    total_surge_patients := 1115
    notes := "CRITICAL: Peak monsoon disease surge. Highest infectious disease load of the year." }

/-- August entry of the source dataset. -/
def august : MonthData :=
  { month := "August"
    festivals := ["Raksha Bandhan", "Janmashtami", "Independence Day"]
    average_aqi := 110
    baseline_patients := 390
    surge_data :=
      [ { disease_category := "infectious"
          conditions := ["Dengue", "Malaria", "Chikungunya"]
          patient_count := 445
          icu_admissions := 58
          oxygen_cylinders_used := some 75
          primary_cause := "Continued monsoon, peak mosquito season" }
      , { disease_category := "gastro"
          conditions := ["Food poisoning", "Gastroenteritis"]
          patient_count := 220
          icu_admissions := 25
          oxygen_cylinders_used := none
          primary_cause := "Festival food during Janmashtami, monsoon contamination" }
      , { disease_category := "accident"
          conditions := ["Fall injuries", "Fractures", "Head trauma"]
          patient_count := 165
          icu_admissions := 42
          oxygen_cylinders_used := none
          primary_cause := "Dahi Handi (human pyramid) events during Janmashtami" } ]
    total_surge_patients := 830
    notes := "Janmashtami Dahi Handi causes predictable trauma surge in Maharashtra." }

/-- September entry of the source dataset. -/
def september : MonthData :=
  { month := "September"
    festivals := ["Ganesh Chaturthi", "Onam"]
    average_aqi := 135
    baseline_patients := 410
    surge_data :=
      [ { disease_category := "infectious"
          conditions := ["Dengue", "Malaria", "Leptospirosis"]
          patient_count := 395
          icu_admissions := 52
          oxygen_cylinders_used := some 68
          primary_cause := "Late monsoon, post-flood infections" }
      , { disease_category := "accident"
          conditions := ["Drowning", "Crowd injuries", "Electrocution"]
          patient_count := 245
          icu_admissions := 68
          oxygen_cylinders_used := none
          primary_cause := "Ganesh idol immersion in rivers/sea, massive crowds" }
      , { disease_category := "gastro"
          conditions := ["Food poisoning", "Diarrhea"]
          patient_count := 185
          icu_admissions := 20
          oxygen_cylinders_used := none
          primary_cause := "Prasad distribution, festival meals" }
      , { disease_category := "respiratory"
          conditions := ["Asthma", "Allergies"]
          patient_count := 140
          icu_admissions := 18
          oxygen_cylinders_used := some 45
          primary_cause := "Idol immersion dust, post-monsoon humidity" } ]
    total_surge_patients := 965
    notes := "HIGH ALERT: Ganesh Chaturthi causes multi-day surge, especially in Maharashtra." }

/-- October entry of the source dataset. -/
def october : MonthData :=
  { month := "October"
    festivals := ["Navratri", "Durga Puja", "Dussehra"]
    average_aqi := 220
    baseline_patients := 430
    surge_data :=
      [ { disease_category := "respiratory"
          conditions := ["Asthma", "COPD", "Bronchitis"]
          patient_count := 595
          icu_admissions := 72
          oxygen_cylinders_used := some 185
          primary_cause := "Post-monsoon pollution rise, crop burning begins, festival firecrackers" }
      , { disease_category := "accident"
          conditions := ["Firecracker burns", "Road accidents", "Garba-related injuries"]
          patient_count := 285
          icu_admissions := 55
          oxygen_cylinders_used := none
          primary_cause := "Dussehra firecrackers, Navratri night-long Garba dances, Ravana effigy burns" }
      , { disease_category := "infectious"
          conditions := ["Dengue late cases", "Viral fever"]
          patient_count := 180
          icu_admissions := 28
          oxygen_cylinders_used := none
          primary_cause := "Dengue season tail-end, weather transition" }
      , { disease_category := "gastro"
          conditions := ["Food poisoning"]
          patient_count := 155
          icu_admissions := 15
          oxygen_cylinders_used := none
          primary_cause := "Festival fasting followed by heavy meals, street food" } ]
    total_surge_patients := 1215
    notes := "VERY HIGH: Navratri + Durga Puja + pollution = major surge. Prepare burn units." }

/-- November entry of the source dataset. -/
def november : MonthData :=
  { month := "November"
    festivals := ["Diwali", "Chhath Puja", "Guru Nanak Jayanti"]
    average_aqi := 380
    baseline_patients := 460
    surge_data :=
      [ { disease_category := "respiratory"
          conditions := ["Asthma", "COPD", "Acute bronchitis", "Pneumonia", "Respiratory failure"]
          patient_count := 1050
          icu_admissions := 145
          oxygen_cylinders_used := some 420
          primary_cause := "CRITICAL AQI (400-500), Diwali firecrackers, winter smog, crop burning peak" }
      , { disease_category := "accident"
          conditions := ["Firecracker burns", "Eye injuries", "Blast injuries", "Road accidents"]
          patient_count := 485
          icu_admissions := 98
          oxygen_cylinders_used := none
          primary_cause := "Diwali firecrackers, drunk driving post-parties" }
      , { disease_category := "gastro"
          conditions := ["Food poisoning", "Acute gastritis"]
          patient_count := 240
          icu_admissions := 28
          oxygen_cylinders_used := none
          primary_cause := "Festival sweets, heavy oil-rich food, overeating" }
      , { disease_category := "cardiac"
          conditions := ["Heart attacks", "Angina", "Cardiac arrest"]
          patient_count := 165
          icu_admissions := 85
          oxygen_cylinders_used := none
          primary_cause := "Air pollution triggering cardiac events, stress, overeating" } ]
    total_surge_patients := 1940
    notes := "🚨 EXTREME ALERT: Diwali = worst surge of year. Triple oxygen stock. All-hands-on-deck." }

/-- December entry of the source dataset. -/
def december : MonthData :=
  { month := "December"
    festivals := ["Christmas"]
    average_aqi := 320
    baseline_patients := 440
    surge_data :=
      [ { disease_category := "respiratory"
          conditions := ["Bronchitis", "Pneumonia", "COPD", "Cold", "Flu"]
          patient_count := 795
          icu_admissions := 98
          oxygen_cylinders_used := some 285
          primary_cause := "Winter pollution continues, cold weather, fog, smog" }
      , { disease_category := "cardiac"
          conditions := ["Heart attacks", "Hypothermia-induced cardiac issues"]
          patient_count := 145
          icu_admissions := 72
          oxygen_cylinders_used := none
          primary_cause := "Cold stress on heart, pollution-related cardiac events" }
      , { disease_category := "accident"
          conditions := ["Road accidents", "Alcohol poisoning"]
          patient_count := 185
          icu_admissions := 45
          oxygen_cylinders_used := none
          primary_cause := "New Year\x27s Eve parties, drunk driving" }
      , { disease_category := "gastro"
          conditions := ["Food poisoning"]
          patient_count := 110
          icu_admissions := 12
          oxygen_cylinders_used := none
          primary_cause := "Christmas parties, holiday food" } ]
    total_surge_patients := 1235
    notes := "HIGH: Winter pollution + festivals. Year-end surge continuing from November." }

/-- The hardcoded 12-month dictionary `historical_data` of the source, as an
association list in the insertion order of the Python dict literal. -/
def historical_data : List (Int × MonthData) :=
  [ (1, january), (2, february), (3, march), (4, april), (5, may), (6, june)
  , (7, july), (8, august), (9, september), (10, october), (11, november)
  , (12, december) ]

/-- The `summary` dictionary the source builds from the filtered data. -/
structure Summary where
  total_months_analyzed : Nat
  highest_surge_month : String
  highest_surge_count : Nat
  critical_alert_months : List String
  data_source : String
  last_updated : String
deriving DecidableEq, Repr

/-- Result of a call to `get_historical_data`.
`error` is the structured error dictionary returned for an out-of-range month;
`fault` models an uncaught Python exception escaping the call (the
`ValueError` that `max()` raises on an empty sequence); `ok` is the normal
result dictionary of summary, historical data and prediction notes. -/
inductive QueryResult where
  | error (msg : String)
  | fault (msg : String)
  | ok (summary : Summary) (hd : List (Int × MonthData)) (pnotes : List String)
deriving DecidableEq, Repr

/-- One comparison step of Python's `max` with key `total_surge_patients`:
the running best is replaced only on a strict increase, so the first maximal
item wins ties, exactly as in CPython. -/
def maxStep (acc y : Int × MonthData) : Int × MonthData :=
  if acc.2.total_surge_patients < y.2.total_surge_patients then y else acc

/-- `max(data.items(), key=lambda x: x[1]["total_surge_patients"])`:
first item attaining the maximal total, `none` on an empty dict
(where Python raises `ValueError`). -/
def maxByTotal : List (Int × MonthData) → Option (Int × MonthData)
  | [] => none
  | x :: xs => some (xs.foldl maxStep x)

/-- One comparison step of Python's `max` over the totals themselves. -/
def natStep (acc : Nat) (y : Int × MonthData) : Nat :=
  if acc < y.2.total_surge_patients then y.2.total_surge_patients else acc

/-- `max(x["total_surge_patients"] for x in data.values())`:
the maximal total itself, `none` on an empty dict. -/
def maxTotal : List (Int × MonthData) → Option Nat
  | [] => none
  | x :: xs => some (xs.foldl natStep x.2.total_surge_patients)

/-- The `prediction_notes` constant list of the source. -/
def prediction_notes : List String :=
  [ "Diwali (November) and Holi (March) cause highest multi-category surges"
  , "Monsoon months (July-September) dominated by infectious diseases"
  , "Winter months (November-February) show respiratory disease peaks due to pollution"
  , "Festival-related accidents are highly predictable and preventable"
  , "AQI above 300 correlates with 100%+ respiratory surge" ]

/-- The error message of the source's invalid-month branch. -/
def invalidMonthMsg : String := "Invalid month. Please provide a value between 1-12."

/-- The `data_source` string of the source's summary. -/
def dataSourceMsg : String :=
  "Historical records from 2020-2024 across major Indian metro hospitals"

/-- The disease-category filtering loop of the source: for each month keep only
the surge entries of category `dt`; drop the month entirely when none remain;
otherwise shallow-copy the month record with only `surge_data` replaced. -/
def filterByCategory (dt : String) (data : List (Int × MonthData)) :
    List (Int × MonthData) :=
  data.filterMap (fun p =>
    if (p.2.surge_data.filter (fun s => s.disease_category == dt)).isEmpty then none
    else some (p.1,
      { p.2 with surge_data := p.2.surge_data.filter (fun s => s.disease_category == dt) }))

/-- The source's `if disease_type and disease_type != "all"` guard: the filter
runs only for a present, non-empty (Python truthiness) string other than
`"all"`. -/
def applyDiseaseFilter (dt : Option String) (data : List (Int × MonthData)) :
    List (Int × MonthData) :=
  match dt with
  | none => data
  | some s => if s ≠ "" ∧ s ≠ "all" then filterByCategory s data else data

/-- The singleton dictionary the source builds for a valid month by indexing
`historical_data` at that key: the sub-list of `historical_data` at key `m`
(a singleton, since the keys 1..12 are distinct and all present). -/
def monthCandidates (m : Int) : List (Int × MonthData) :=
  historical_data.filter (fun p => p.1 == m)

/-- The candidate set after step 1 of the algorithm (month narrowing),
before the disease-category filter. -/
def candidates : Option Int → List (Int × MonthData)
  | none => historical_data
  | some m => monthCandidates m

/-- The summary-building tail of the source.  Both `max` computations fault on
an empty dict, so an empty candidate set yields `QueryResult.fault`. -/
def mkResult (data : List (Int × MonthData)) : QueryResult :=
  match maxByTotal data, maxTotal data with
  | some hm, some hc =>
      .ok
        { total_months_analyzed := data.length
          highest_surge_month := hm.2.month
          highest_surge_count := hc
          critical_alert_months :=
            (data.filter (fun p => 1000 < p.2.total_surge_patients)).map
              (fun p => p.2.month)
          data_source := dataSourceMsg
          last_updated := "2024" }
        data prediction_notes
  | _, _ => .fault "max() arg is an empty sequence"

/-- Shallow embedding of `get_historical_data(month, disease_type)`. -/
def get_historical_data (month : Option Int) (disease_type : Option String) :
    QueryResult :=
  match month with
  | some m =>
      if m < 1 ∨ 12 < m then .error invalidMonthMsg
      else mkResult (applyDiseaseFilter disease_type (monthCandidates m))
  | none => mkResult (applyDiseaseFilter disease_type historical_data)

/-- Observer: did the call return the normal result dictionary? -/
def isOk : QueryResult → Bool
  | .ok _ _ _ => true
  | _ => false

/-- Observer: the returned `historical_data` mapping (empty on error/fault). -/
def okData : QueryResult → List (Int × MonthData)
  | .ok _ d _ => d
  | _ => []

/-- Observer: the month keys of the returned `historical_data` mapping. -/
def okMonthKeys (r : QueryResult) : List Int :=
  (okData r).map Prod.fst

/-- Observer: does every surge entry of the returned mapping carry category `c`? -/
def okAllCategory (c : String) (r : QueryResult) : Bool :=
  (okData r).all (fun p => p.2.surge_data.all (fun e => e.disease_category == c))

/-- Process state visible to a call: the Python module/process state a call
could in principle read or write.  The only datum the spec singles out is the
dataset; the source never touches any such state (the dict literal is rebuilt
locally on every call), so a call leaves the state untouched. -/
structure AgentState where
  dataset : List (Int × MonthData)
deriving DecidableEq, Repr

/-- One invocation of the tool as the agent framework performs it: the result
together with the process state after the call.  The source function neither
reads nor writes process state. -/
def get_historical_data_call (month : Option Int) (disease_type : Option String)
    (st : AgentState) : QueryResult × AgentState :=
  (get_historical_data month disease_type, st)

/-! ### General lemmas about the maximum folds and the category filter -/

lemma foldl_maxStep_total (xs : List (Int × MonthData)) (acc : Int × MonthData) :
    (xs.foldl maxStep acc).2.total_surge_patients =
      xs.foldl natStep acc.2.total_surge_patients := by
  induction xs generalizing acc with
  | nil => rfl
  | cons y ys ih =>
      simp only [List.foldl_cons]
      rw [ih]
      by_cases h : acc.2.total_surge_patients < y.2.total_surge_patients <;>
        simp [maxStep, natStep, h]

lemma foldl_maxStep_mem (xs : List (Int × MonthData)) (acc : Int × MonthData) :
    xs.foldl maxStep acc = acc ∨ xs.foldl maxStep acc ∈ xs := by
  induction xs generalizing acc with
  | nil => exact Or.inl rfl
  | cons y ys ih =>
      simp only [List.foldl_cons]
      rcases ih (maxStep acc y) with h | h
      · rw [h]
        unfold maxStep
        split
        · exact Or.inr (List.mem_cons_self _ _)
        · exact Or.inl rfl
      · exact Or.inr (List.mem_cons_of_mem _ h)

lemma le_foldl_natStep (xs : List (Int × MonthData)) (acc : Nat) :
    acc ≤ xs.foldl natStep acc := by
  induction xs generalizing acc with
  | nil => exact Nat.le_refl _
  | cons y ys ih =>
      simp only [List.foldl_cons]
      refine Nat.le_trans ?_ (ih (natStep acc y))
      unfold natStep
      split
      · exact Nat.le_of_lt (by assumption)
      · exact Nat.le_refl _

lemma mem_le_foldl_natStep {y : Int × MonthData} (xs : List (Int × MonthData))
    (acc : Nat) (hy : y ∈ xs) :
    y.2.total_surge_patients ≤ xs.foldl natStep acc := by
  induction xs generalizing acc with
  | nil => cases hy
  | cons z zs ih =>
      simp only [List.foldl_cons]
      rcases List.mem_cons.mp hy with h | h
      · subst h
        refine Nat.le_trans ?_ (le_foldl_natStep zs (natStep acc y))
        unfold natStep
        split
        · exact Nat.le_refl _
        · exact Nat.le_of_not_lt (by assumption)
      · exact ih _ h

/-- Unfolding of the summary builder on a non-empty candidate list. -/
lemma mkResult_cons (x : Int × MonthData) (xs : List (Int × MonthData)) :
    mkResult (x :: xs) =
      QueryResult.ok
        { total_months_analyzed := (x :: xs).length
          highest_surge_month := (xs.foldl maxStep x).2.month
          highest_surge_count := xs.foldl natStep x.2.total_surge_patients
          critical_alert_months :=
            ((x :: xs).filter (fun p => 1000 < p.2.total_surge_patients)).map
              (fun p => p.2.month)
          data_source := dataSourceMsg
          last_updated := "2024" }
        (x :: xs) prediction_notes := rfl

/-- Everything a successful `mkResult` says about its output: the returned
mapping is the candidate set itself (hence non-empty), the note list is the
constant, and the summary fields are the length, the critical-month list, and
a genuinely maximal total together with the month name of a month attaining
it. -/
lemma mkResult_ok_destruct {L d : List (Int × MonthData)} {s : Summary}
    {n : List String} (h : mkResult L = QueryResult.ok s d n) :
    d = L ∧ L ≠ [] ∧ n = prediction_notes ∧
      s.total_months_analyzed = L.length ∧
      s.critical_alert_months =
        (L.filter (fun p => 1000 < p.2.total_surge_patients)).map
          (fun p => p.2.month) ∧
      (∀ p ∈ L, p.2.total_surge_patients ≤ s.highest_surge_count) ∧
      ∃ p ∈ L, p.2.total_surge_patients = s.highest_surge_count ∧
        p.2.month = s.highest_surge_month := by
  cases L with
  | nil => simp [mkResult, maxByTotal, maxTotal] at h
  | cons x xs =>
      rw [mkResult_cons] at h
      injection h with hs hd hn
      subst hd
      subst hn
      subst hs
      refine ⟨rfl, by simp, rfl, rfl, rfl, ?_, ?_⟩
      · intro p hp
        rcases List.mem_cons.mp hp with h | h
        · subst h
          exact le_foldl_natStep xs _
        · exact mem_le_foldl_natStep xs _ h
      · refine ⟨xs.foldl maxStep x, ?_, foldl_maxStep_total xs x, rfl⟩
        rcases foldl_maxStep_mem xs x with h | h
        · rw [h]; exact List.mem_cons_self _ _
        · exact List.mem_cons_of_mem _ h

/-- A successful call went through the month narrowing and then the category
filter: its output components satisfy the `mkResult` equation over the
filtered candidate set. -/
lemma ghd_ok_mkResult {month : Option Int} {dt : Option String} {s : Summary}
    {d : List (Int × MonthData)} {n : List String}
    (h : get_historical_data month dt = QueryResult.ok s d n) :
    mkResult (applyDiseaseFilter dt (candidates month)) = QueryResult.ok s d n := by
  cases month with
  | none => exact h
  | some m =>
      simp only [get_historical_data] at h
      by_cases hr : m < 1 ∨ 12 < m
      · rw [if_pos hr] at h
        cases h
      · rw [if_neg hr] at h
        exact h

lemma applyDiseaseFilter_all (data : List (Int × MonthData)) :
    applyDiseaseFilter (some "all") data = data := by
  have h : ¬(("all" : String) ≠ "" ∧ ("all" : String) ≠ "all") := fun hc => hc.2 rfl
  show (if ("all" : String) ≠ "" ∧ ("all" : String) ≠ "all" then
    filterByCategory "all" data else data) = data
  exact if_neg h

lemma applyDiseaseFilter_category {c : String} (data : List (Int × MonthData))
    (h0 : c ≠ "") (h1 : c ≠ "all") :
    applyDiseaseFilter (some c) data = filterByCategory c data := by
  show (if c ≠ "" ∧ c ≠ "all" then filterByCategory c data else data) =
    filterByCategory c data
  exact if_pos ⟨h0, h1⟩

/-- Every record surviving the category filter has a non-empty surge list all
of whose entries carry the requested category. -/
lemma mem_filterByCategory {dt : String} {data : List (Int × MonthData)}
    {p : Int × MonthData} (h : p ∈ filterByCategory dt data) :
    p.2.surge_data ≠ [] ∧ ∀ e ∈ p.2.surge_data, e.disease_category = dt := by
  unfold filterByCategory at h
  rw [List.mem_filterMap] at h
  obtain ⟨a, _, ha⟩ := h
  split at ha
  · cases ha
  · injection ha with ha
    subst ha
    constructor
    · intro hnil
      rename_i hne
      rw [List.isEmpty_iff] at hne
      exact hne hnil
    · intro e he
      have := (List.mem_filter.mp he).2
      exact beq_iff_eq.mp this

/-- The category filter only rearranges which months appear: every surviving
record is the original month record with only `surge_data` replaced by its
filtered sub-list; every other field keeps its full-month value. -/
lemma mem_filterByCategory_frame {dt : String} {data : List (Int × MonthData)}
    {p : Int × MonthData} (h : p ∈ filterByCategory dt data) :
    ∃ orig, (p.1, orig) ∈ data ∧
      p.2.month = orig.month ∧ p.2.festivals = orig.festivals ∧
      p.2.average_aqi = orig.average_aqi ∧
      p.2.baseline_patients = orig.baseline_patients ∧
      p.2.notes = orig.notes ∧
      p.2.total_surge_patients = orig.total_surge_patients ∧
      p.2.surge_data = orig.surge_data.filter (fun e => e.disease_category == dt) := by
  unfold filterByCategory at h
  rw [List.mem_filterMap] at h
  obtain ⟨a, hmem, ha⟩ := h
  split at ha
  · cases ha
  · injection ha with ha
    subst ha
    refine ⟨a.2, ?_, rfl, rfl, rfl, rfl, rfl, rfl, rfl⟩
    show (a.1, a.2) ∈ data
    rw [Prod.mk.eta]
    exact hmem

/-- Completeness of the category filter: a candidate month with at least one
matching entry keeps its key in the filtered mapping. -/
lemma filterByCategory_keeps {dt : String} {data : List (Int × MonthData)}
    {a : Int × MonthData} (ha : a ∈ data)
    (hne : a.2.surge_data.filter (fun s => s.disease_category == dt) ≠ []) :
    a.1 ∈ (filterByCategory dt data).map Prod.fst := by
  rw [List.mem_map]
  refine ⟨(a.1,
    { a.2 with surge_data := a.2.surge_data.filter (fun s => s.disease_category == dt) }),
    ?_, rfl⟩
  unfold filterByCategory
  rw [List.mem_filterMap]
  refine ⟨a, ha, ?_⟩
  rw [if_neg]
  intro hemp
  rw [List.isEmpty_iff] at hemp
  exact hne hemp

/-! ### Claim theorems -/

/-- C1: the claim says that when the combined filters match no months the
function returns a structured result with `total_months_analyzed = 0` and an
empty `historical_data`.  The code instead evaluates `max()` over the empty
filtered dictionary, which raises `ValueError`: the call faults and returns
nothing, both for `month=6, disease_type="cardiac"` (June has no cardiac
entry) and for an unrecognized category with no month filter.  This theorem
evaluates the code at those failing inputs. -/
theorem c1_empty_filter_faults :
    get_historical_data (some 6) (some "cardiac") =
      QueryResult.fault "max() arg is an empty sequence" ∧
    get_historical_data none (some "unrecognized_disease") =
      QueryResult.fault "max() arg is an empty sequence" := by
  exact ⟨rfl, rfl⟩

/-- C2 counterexample: with `month=None, disease_type="respiratory"` the call
succeeds but returns only 8 months — keys 1, 2, 3, 7, 9, 10, 11, 12 — not the
12 months the claim asserts: April (key 4) carries no respiratory entry and is
dropped. -/
theorem c2_counterexample :
    isOk (get_historical_data none (some "respiratory")) = true ∧
    okMonthKeys (get_historical_data none (some "respiratory")) =
      [1, 2, 3, 7, 9, 10, 11, 12] ∧
    (4 : Int) ∉ okMonthKeys (get_historical_data none (some "respiratory")) ∧
    (okMonthKeys (get_historical_data none (some "respiratory"))).length ≠ 12 := by
  refine ⟨rfl, rfl, by decide, by decide⟩

/-- C2 amended: with `month=None, disease_type="respiratory"` the result maps
exactly the 8 months 1, 2, 3, 7, 9, 10, 11 and 12 (respiratory entries occur
only in those months of the dataset), and every `surge_data` list in the
result contains only entries of category "respiratory". -/
theorem c2_respiratory_eight_months :
    isOk (get_historical_data none (some "respiratory")) = true ∧
    okMonthKeys (get_historical_data none (some "respiratory")) =
      [1, 2, 3, 7, 9, 10, 11, 12] ∧
    okAllCategory "respiratory" (get_historical_data none (some "respiratory")) = true := by
  exact ⟨rfl, rfl, rfl⟩

/-- C3: for every integer month outside [1,12] and every disease filter, the
call returns the structured out-of-range error value — a result carrying only
the error message, hence no `historical_data` or `summary` component — and in
particular neither filters nor faults. -/
theorem c3_out_of_range_month_error (m : Int) (dt : Option String)
    (h : m < 1 ∨ 12 < m) :
    get_historical_data (some m) dt = QueryResult.error invalidMonthMsg := by
  simp only [get_historical_data]
  rw [if_pos h]

/-- Witness for C3 at `month = 13` (and, for the lower bound, `month = 0`). -/
theorem c3_out_of_range_month_error_witness :
    (((13 : Int) < 1 ∨ 12 < (13 : Int)) ∧
      get_historical_data (some 13) none = QueryResult.error invalidMonthMsg) ∧
    (((0 : Int) < 1 ∨ 12 < (0 : Int)) ∧
      get_historical_data (some 0) (some "gastro") = QueryResult.error invalidMonthMsg) :=
  ⟨⟨by decide, c3_out_of_range_month_error 13 none (by decide)⟩,
   ⟨by decide, c3_out_of_range_month_error 0 (some "gastro") (by decide)⟩⟩

/-- C4: whenever the call returns the normal result (which is exactly when the
filtered candidate set is non-empty — the empty case faults, see C1), the
summary's `highest_surge_count` is an upper bound of `total_surge_patients`
over the months present in the returned `historical_data`, and it is attained
by some present month whose `month` name is `highest_surge_month`. -/
theorem c4_highest_surge_is_max {month : Option Int} {dt : Option String}
    {s : Summary} {d : List (Int × MonthData)} {n : List String}
    (h : get_historical_data month dt = QueryResult.ok s d n) :
    d ≠ [] ∧
    (∀ p ∈ d, p.2.total_surge_patients ≤ s.highest_surge_count) ∧
    ∃ p ∈ d, p.2.total_surge_patients = s.highest_surge_count ∧
      p.2.month = s.highest_surge_month := by
  obtain ⟨hd, hne, -, -, -, hub, hat⟩ := mkResult_ok_destruct (ghd_ok_mkResult h)
  subst hd
  exact ⟨hne, hub, hat⟩

/-- Witness for C4 at `month = 11`, no disease filter. -/
theorem c4_highest_surge_is_max_witness :
    ∃ s d n, get_historical_data (some 11) none = QueryResult.ok s d n ∧
      (d ≠ [] ∧
       (∀ p ∈ d, p.2.total_surge_patients ≤ s.highest_surge_count) ∧
       ∃ p ∈ d, p.2.total_surge_patients = s.highest_surge_count ∧
         p.2.month = s.highest_surge_month) :=
  ⟨_, _, _, rfl, @c4_highest_surge_is_max (some 11) none _ _ _ rfl⟩

/-- C5: whenever the call returns the normal result, the summary's
`critical_alert_months` is exactly the list of `month` names of the months
present in the returned `historical_data` whose `total_surge_patients` exceeds
the fixed threshold 1000, in mapping order.  (On the inputs where the filters
match nothing the call faults instead of returning a summary — see C1.) -/
theorem c5_critical_alert_months_exact {month : Option Int} {dt : Option String}
    {s : Summary} {d : List (Int × MonthData)} {n : List String}
    (h : get_historical_data month dt = QueryResult.ok s d n) :
    s.critical_alert_months =
      (d.filter (fun p => 1000 < p.2.total_surge_patients)).map
        (fun p => p.2.month) := by
  obtain ⟨hd, -, -, -, hcrit, -, -⟩ := mkResult_ok_destruct (ghd_ok_mkResult h)
  subst hd
  exact hcrit

/-- Witness for C5 at `month = None`, no disease filter: the critical months
of the full dataset. -/
theorem c5_critical_alert_months_exact_witness :
    ∃ s d n, get_historical_data none none = QueryResult.ok s d n ∧
      s.critical_alert_months =
        (d.filter (fun p => 1000 < p.2.total_surge_patients)).map
          (fun p => p.2.month) ∧
      s.critical_alert_months =
        ["March", "July", "October", "November", "December"] :=
  ⟨_, _, _, rfl, @c5_critical_alert_months_exact none none _ _ _ rfl, rfl⟩

/-- C6: when an effective category filter is given (a non-empty string other
than "all") and the call returns the normal result, every returned month
record has a non-empty `surge_data` list all of whose entries carry exactly
that category (case-sensitive string equality), and conversely every candidate
month (after the month narrowing) with at least one matching entry keeps its
key in the returned mapping — months whose filtered list is empty are exactly
the ones dropped. -/
theorem c6_category_filter_exact {month : Option Int} {c : String} {s : Summary}
    {d : List (Int × MonthData)} {n : List String}
    (h0 : c ≠ "") (h1 : c ≠ "all")
    (h : get_historical_data month (some c) = QueryResult.ok s d n) :
    (∀ p ∈ d, p.2.surge_data ≠ [] ∧ ∀ e ∈ p.2.surge_data, e.disease_category = c) ∧
    (∀ p ∈ candidates month,
      p.2.surge_data.filter (fun e => e.disease_category == c) ≠ [] →
      p.1 ∈ d.map Prod.fst) := by
  obtain ⟨hd, -, -, -, -, -, -⟩ := mkResult_ok_destruct (ghd_ok_mkResult h)
  rw [applyDiseaseFilter_category _ h0 h1] at hd
  subst hd
  refine ⟨fun p hp => mem_filterByCategory hp, fun p hp hne => ?_⟩
  exact filterByCategory_keeps hp hne

/-- Witness for C6 with category "cardiac" (present in November and December)
and no month filter. -/
theorem c6_category_filter_exact_witness :
    ("cardiac" ≠ "" ∧ "cardiac" ≠ "all") ∧
    ∃ s d n, get_historical_data none (some "cardiac") = QueryResult.ok s d n ∧
      ((∀ p ∈ d, p.2.surge_data ≠ [] ∧
          ∀ e ∈ p.2.surge_data, e.disease_category = "cardiac") ∧
       (∀ p ∈ candidates none,
         p.2.surge_data.filter (fun e => e.disease_category == "cardiac") ≠ [] →
         p.1 ∈ d.map Prod.fst)) :=
  ⟨⟨by decide, by decide⟩,
   _, _, _, rfl,
   @c6_category_filter_exact none "cardiac" _ _ _ (by decide) (by decide) rfl⟩

/-- C7: the literal wildcard "all" is an identity category filter: for every
month argument (valid or not) the result equals that of the same call with
the category absent.  (An absent category is the no-filter call itself, so the
two cases of the claim coincide.) -/
theorem c7_all_is_no_filter (month : Option Int) :
    get_historical_data month (some "all") = get_historical_data month none := by
  cases month with
  | none =>
      show mkResult (applyDiseaseFilter (some "all") historical_data) =
        mkResult (applyDiseaseFilter none historical_data)
      rw [applyDiseaseFilter_all]
      rfl
  | some m =>
      show (if m < 1 ∨ 12 < m then QueryResult.error invalidMonthMsg
        else mkResult (applyDiseaseFilter (some "all") (monthCandidates m))) =
        (if m < 1 ∨ 12 < m then QueryResult.error invalidMonthMsg
        else mkResult (applyDiseaseFilter none (monthCandidates m)))
      rw [applyDiseaseFilter_all]
      rfl

/-- C8: every month record of the embedded dataset satisfies the invariant
that `total_surge_patients` equals the sum of `patient_count` over its
`surge_data` entries. -/
theorem c8_total_equals_sum (p : Int × MonthData) (h : p ∈ historical_data) :
    p.2.total_surge_patients =
      (p.2.surge_data.map SurgeEntry.patient_count).sum := by
  revert p
  decide

/-- Witness for C8 at January. -/
theorem c8_total_equals_sum_witness :
    ((1 : Int), january) ∈ historical_data ∧
    january.total_surge_patients =
      (january.surge_data.map SurgeEntry.patient_count).sum :=
  ⟨by decide, c8_total_equals_sum ((1 : Int), january) (by decide)⟩

/-- C9: the call is pure and deterministic.  Through the process-state-passing
view of an invocation, running the same query a second time — after the first
call — returns the same result as the first call, and the process state (in
particular the dataset) is exactly the state before the first call: no hidden
state drift across calls. -/
theorem c9_pure_deterministic (month : Option Int) (dt : Option String)
    (st : AgentState) :
    get_historical_data_call month dt ((get_historical_data_call month dt st).2) =
      ((get_historical_data_call month dt st).1, st) ∧
    ((get_historical_data_call month dt st).2).dataset = st.dataset := by
  exact ⟨rfl, rfl⟩

/-- C10: under an effective category filter, each returned month record is the
original candidate record with only `surge_data` replaced by its filtered
sub-list: `month`, `festivals`, `average_aqi`, `baseline_patients`, `notes`
and in particular `total_surge_patients` keep their full-month values.  Hence
(with C4 and C5) the summary statistics are computed from the unfiltered
monthly totals even under a category filter. -/
theorem c10_filter_frame {month : Option Int} {c : String} {s : Summary}
    {d : List (Int × MonthData)} {n : List String}
    (h0 : c ≠ "") (h1 : c ≠ "all")
    (h : get_historical_data month (some c) = QueryResult.ok s d n) :
    ∀ p ∈ d, ∃ orig, (p.1, orig) ∈ candidates month ∧
      p.2.month = orig.month ∧ p.2.festivals = orig.festivals ∧
      p.2.average_aqi = orig.average_aqi ∧
      p.2.baseline_patients = orig.baseline_patients ∧
      p.2.notes = orig.notes ∧
      p.2.total_surge_patients = orig.total_surge_patients ∧
      p.2.surge_data = orig.surge_data.filter (fun e => e.disease_category == c) := by
  obtain ⟨hd, -, -, -, -, -, -⟩ := mkResult_ok_destruct (ghd_ok_mkResult h)
  rw [applyDiseaseFilter_category _ h0 h1] at hd
  subst hd
  exact fun p hp => mem_filterByCategory_frame hp

/-- Witness for C10 at `month = 11`, category "cardiac": November keeps its
full-month total 1940 although only the cardiac entry (165 patients) remains. -/
theorem c10_filter_frame_witness :
    ("cardiac" ≠ "" ∧ "cardiac" ≠ "all") ∧
    ∃ s d n, get_historical_data (some 11) (some "cardiac") = QueryResult.ok s d n ∧
      (∀ p ∈ d, ∃ orig, (p.1, orig) ∈ candidates (some 11) ∧
        p.2.month = orig.month ∧ p.2.festivals = orig.festivals ∧
        p.2.average_aqi = orig.average_aqi ∧
        p.2.baseline_patients = orig.baseline_patients ∧
        p.2.notes = orig.notes ∧
        p.2.total_surge_patients = orig.total_surge_patients ∧
        p.2.surge_data =
          orig.surge_data.filter (fun e => e.disease_category == "cardiac")) :=
  ⟨⟨by decide, by decide⟩,
   _, _, _, rfl,
   @c10_filter_frame (some 11) "cardiac" _ _ _ (by decide) (by decide) rfl⟩

end ArogyamAI
